import Mathlib

/-!
Shallow embedding of the telemetry ingestion service (src/app.py and
src/server.py): event normalization, the three-sink persistence pipeline,
the dual storage backends (networked Postgres / embedded SQLite) and the
stats aggregator, with theorems settling the frozen claims C1..C10.
-/

set_option autoImplicit false

namespace Landing

/-- A JSON-ish scalar value as it appears in a normalized event entry:
entries built by the handlers hold strings, and `sessionStarted` (when a
caller supplies it) may be an integer. -/
inductive Val where
  | s : String → Val
  | n : Int → Val
deriving DecidableEq, Repr

/-- A Python dict with string keys, embedded as an insertion-ordered
association list.  All dicts built by the code keep keys unique. -/
abbrev Dict := List (String × Val)

/-- Python `d[k] = v` semantics on the association list: an existing key
keeps its position and gets the new value, a new key is appended. -/
def dictSet (d : Dict) (k : String) (v : Val) : Dict :=
  if d.any (fun p => p.1 = k) then
    d.map (fun p => if p.1 = k then (k, v) else p)
  else
    d ++ [(k, v)]

/-- Python `d.update(other)`: assign every pair of `other` in order. -/
def dictUpdate (d other : Dict) : Dict :=
  other.foldl (fun acc p => dictSet acc p.1 p.2) d

/-- Python `d.setdefault(k, v)`: insert `(k, v)` only when `k` is absent. -/
def dictSetdefault (d : Dict) (k : String) (v : Val) : Dict :=
  if d.any (fun p => p.1 = k) then d else d ++ [(k, v)]

/-- Python `k in d`. -/
def hasKey (d : Dict) (k : String) : Bool :=
  d.any (fun p => p.1 = k)

/-- Python `d.get(k, dflt)`: value of the first (hence, for unique keys,
only) binding of `k`, or the default. -/
def dictGet (d : Dict) (k : String) (dflt : Val) : Val :=
  match d with
  | [] => dflt
  | p :: t => if p.1 = k then p.2 else dictGet t k dflt

/-- Serialization of one scalar for `json.dumps` (string escaping is not
modelled; the entries the pipeline builds contain no quote characters). -/
def dumpVal : Val → String
  | .s str => "\"" ++ str ++ "\""
  | .n i => toString i

/-- Body of `json.dumps` on a dict: comma-separated `"k": v` pairs. -/
def dumpPairs : List (String × Val) → String
  | [] => ""
  | [p] => "\"" ++ p.1 ++ "\": " ++ dumpVal p.2
  | p :: rest => "\"" ++ p.1 ++ "\": " ++ dumpVal p.2 ++ ", " ++ dumpPairs rest

/-- `json.dumps(entry)`: the serialized JSON object of the whole entry. -/
def dumps (d : Dict) : String :=
  "\x7b" ++ dumpPairs d ++ "\x7d"

/-- Outcome of parsing a POST body as JSON, as both handlers observe it:
the body may fail to parse, parse to a JSON object (a dict), or parse to a
non-object value. -/
inductive PostBody where
  | parseError : PostBody
  | obj : Dict → PostBody
  | nonObj : Val → PostBody

/-- Transport context of a FastAPI request in src/app.py: the server UTC
timestamp taken at receipt (`datetime.utcnow().isoformat() + "Z"`), the
optional peer (`req.client`), the `x-forwarded-for` header (carried by the
request but never read by app.py), and the URL path. -/
structure AppCtx where
  nowTs : String
  clientHost : Option String
  xForwardedFor : Option String
  urlPath : String

/-- Transport context of a raw-socket request in src/server.py:
server UTC timestamp, the `x-forwarded-for` header (absent header reads as
`""` through `headers.get`), the peer address `self.client_address[0]`,
and the parsed request path. -/
structure ServerCtx where
  nowTs : String
  xForwardedFor : Option String
  clientAddress : String
  parsedPath : String

/-- src/app.py line 248: `req.client.host if req.client else ""`. -/
def appClientHost (ctx : AppCtx) : String :=
  match ctx.clientHost with
  | some h => h
  | none => ""

/-- ASCII whitespace recognized by Python `str.strip()`. -/
def isSpaceChar (c : Char) : Bool :=
  c = ' ' || c = '\t' || c = '\n' || c = '\r' || c = '\x0b' || c = '\x0c'

/-- Drop leading whitespace characters. -/
def dropSpaces : List Char → List Char
  | [] => []
  | c :: t => if isSpaceChar c then dropSpaces t else c :: t

/-- Python `s.strip()`: remove whitespace from both ends. -/
def pyStrip (s : String) : String :=
  ⟨(dropSpaces (dropSpaces s.data).reverse).reverse⟩

/-- Worker for `pySplitComma`: accumulate the current token (reversed). -/
def splitCommaAux : List Char → List Char → List String
  | [], acc => [⟨acc.reverse⟩]
  | c :: t, acc =>
    if c = ',' then ⟨acc.reverse⟩ :: splitCommaAux t []
    else splitCommaAux t (c :: acc)

/-- Python `s.split(",")`: always a nonempty list of tokens
(`"".split(",") == [""]`). -/
def pySplitComma (s : String) : List String :=
  splitCommaAux s.data []

/-- src/server.py lines 234 and 287:
`self.headers.get("x-forwarded-for", "").split(",")[0].strip()
 or self.client_address[0]`.
Python `split` always returns a nonempty list, and `or` falls through on
the empty string. -/
def serverClientIp (xff : Option String) (peerAddr : String) : String :=
  let first := (pySplitComma (xff.getD "")).headD ""
  let trimmed := pyStrip first
  if trimmed = "" then peerAddr else trimmed

/-- The clientIp resolution rule as the spec words it (section 4.1): split
the forwarding header on a comma, take the first token, trim whitespace;
if empty, use the raw peer address. -/
def specClientIp (fwd : Option String) (peer : String) : String :=
  let token := pyStrip ((pySplitComma (fwd.getD "")).headD "")
  if token = "" then peer else token

/-- src/app.py lines 240-255, the POST normalizer of `visit_post`: on a
parse failure `payload = \x7b\x7d`; the entry starts from the four
server-set fields, then `entry.update(payload)` when the payload is a
dict, then `setdefault` for path, referrer and userAgent. -/
def app_visit_post_entry (ctx : AppCtx) (body : PostBody) : Dict :=
  let payload : Option Dict :=
    match body with
    | .parseError => some []
    | .obj d => some d
    | .nonObj _ => none
  let entry : Dict :=
    [("ts", .s ctx.nowTs), ("method", .s "POST"),
     ("ip", .s (appClientHost ctx)), ("requestPath", .s ctx.urlPath)]
  let entry :=
    match payload with
    | some d => dictUpdate entry d
    | none => entry
  let entry := dictSetdefault entry "path" (.s "")
  let entry := dictSetdefault entry "referrer" (.s "")
  dictSetdefault entry "userAgent" (.s "")

/-- The six query parameters read by the GET handlers; a missing parameter
reads as `""` (FastAPI defaults in app.py, `params.get(k, [""])[0]` in
server.py). -/
structure GetParams where
  path : String
  referrer : String
  ua : String
  event : String
  sid : String
  utm : String

/-- src/app.py lines 261-273, the GET normalizer of `visit_get`. -/
def app_visit_get_entry (ctx : AppCtx) (p : GetParams) : Dict :=
  [("ts", .s ctx.nowTs), ("method", .s "GET"),
   ("path", .s p.path), ("referrer", .s p.referrer),
   ("userAgent", .s p.ua), ("event", .s p.event),
   ("sessionId", .s p.sid), ("utm", .s p.utm),
   ("ip", .s (appClientHost ctx)), ("requestPath", .s ctx.urlPath)]

/-- src/server.py lines 234-245, the POST normalizer inside
`Handler.do_POST` (runs only when the body parsed; the payload argument is
`some d` when the parsed value is a dict, `none` otherwise). -/
def server_post_entry (ctx : ServerCtx) (payload : Option Dict) : Dict :=
  let ip := serverClientIp ctx.xForwardedFor ctx.clientAddress
  let entry : Dict :=
    [("ts", .s ctx.nowTs), ("method", .s "POST"),
     ("ip", .s ip), ("requestPath", .s ctx.parsedPath)]
  let entry :=
    match payload with
    | some d => dictUpdate entry d
    | none => entry
  let entry := dictSetdefault entry "path" (.s "")
  let entry := dictSetdefault entry "referrer" (.s "")
  dictSetdefault entry "userAgent" (.s "")

/-- src/server.py lines 277-289, the GET normalizer inside
`Handler.do_GET` for the /api/visit paths. -/
def server_get_entry (ctx : ServerCtx) (p : GetParams) : Dict :=
  [("ts", .s ctx.nowTs), ("method", .s "GET"),
   ("path", .s p.path), ("referrer", .s p.referrer),
   ("userAgent", .s p.ua), ("event", .s p.event),
   ("sessionId", .s p.sid), ("utm", .s p.utm),
   ("ip", .s (serverClientIp ctx.xForwardedFor ctx.clientAddress)),
   ("requestPath", .s ctx.parsedPath)]

/-! ## The three-sink pipeline, as control flow

Each sink attempt is summarized by whether its underlying effect (HTTPS
delivery, file append, database insert) would raise, and by whether the
enclosing function catches that failure.  A handler either finishes its
sink sequence and sends 204, or an uncaught exception escapes and no
response is produced. -/

/-- Fault injection per sink: `true` means the raw effect raises. -/
structure SinkFaults where
  remote : Bool
  file : Bool
  db : Bool
deriving DecidableEq, Repr

/-- Run a sequence of sinks; each is a triple (name, whether the function
catches its own failure, whether the raw effect faults).  Returns the
names invoked and whether an exception escaped the sequence. -/
def runSinkSeq : List (String × Bool × Bool) → List String × Bool
  | [] => ([], false)
  | (name, catches, fault) :: rest =>
    if fault && !catches then
      ([name], true)
    else
      let r := runSinkSeq rest
      (name :: r.1, r.2)

/-- src/app.py lines 220-223, `persist`: send_to_logtail (try/except over
its whole body, lines 91-103), append_file (try/except, lines 107-111),
write_db (try/except, lines 115-167), invoked in that order. -/
def app_persist_trace (f : SinkFaults) : List String × Bool :=
  runSinkSeq
    [("remote", true, f.remote), ("file", true, f.file), ("db", true, f.db)]

/-- src/server.py: the sink sequence of Handler.do_POST lines 247-249 and
Handler.do_GET lines 290-292: send_to_logtail catches its urlopen failure
(lines 101-104), append_file has no try/except (lines 107-110) so its
failure escapes, write_db catches (lines 114-166). -/
def server_sink_trace (f : SinkFaults) : List String × Bool :=
  runSinkSeq
    [("remote", true, f.remote), ("file", false, f.file), ("db", true, f.db)]

/-- src/app.py `visit_post` as a whole: normalize, persist, then
`Response(status_code=204)`.  Result: the normalized entry, the sinks
invoked, and the HTTP status produced (`none` would mean an exception
escaped the handler). -/
def app_visit_post (ctx : AppCtx) (body : PostBody) (f : SinkFaults) :
    Dict × List String × Option Nat :=
  let entry := app_visit_post_entry ctx body
  let t := app_persist_trace f
  (entry, t.1, if t.2 then none else some 204)

/-- src/app.py `visit_get` as a whole. -/
def app_visit_get (ctx : AppCtx) (p : GetParams) (f : SinkFaults) :
    Dict × List String × Option Nat :=
  let entry := app_visit_get_entry ctx p
  let t := app_persist_trace f
  (entry, t.1, if t.2 then none else some 204)

/-- src/server.py Handler.do_POST, lines 226-252: a body that fails JSON
parsing is rejected with `send_error(400)` before any normalization or
sink runs; otherwise the entry is built, the three sinks run (the file
sink uncaught), and on survival `send_response(204)`.  Result: the entry
when one was built, the sinks invoked, and the status sent (`none` means
an uncaught exception escaped and no response was produced). -/
def server_do_post (ctx : ServerCtx) (body : PostBody) (f : SinkFaults) :
    Option Dict × List String × Option Nat :=
  match body with
  | .parseError => (none, [], some 400)
  | .obj d =>
    let entry := server_post_entry ctx (some d)
    let t := server_sink_trace f
    (some entry, t.1, if t.2 then none else some 204)
  | .nonObj _ =>
    let entry := server_post_entry ctx none
    let t := server_sink_trace f
    (some entry, t.1, if t.2 then none else some 204)

/-- src/server.py Handler.do_GET on the /api/visit paths, lines 276-295. -/
def server_do_get_visit (ctx : ServerCtx) (p : GetParams) (f : SinkFaults) :
    Dict × List String × Option Nat :=
  let entry := server_get_entry ctx p
  let t := server_sink_trace f
  (entry, t.1, if t.2 then none else some 204)

/-! ## The storage backends -/

/-- One row of the embedded (SQLite) `visits` table, without the
auto-increment id.  SQLite columns are dynamically typed, so each column
holds the bound value as-is. -/
structure Row where
  ts : Val
  method : Val
  ip : Val
  requestPath : Val
  path : Val
  referrer : Val
  userAgent : Val
  event : Val
  sessionId : Val
  sessionStarted : Val
  utm : Val
  payload : String
deriving DecidableEq, Repr

/-- The parameter tuple both write_db variants bind (src/app.py lines
126-139 and 150-163, identical in src/server.py): every missing string
field defaults to `""`, a missing sessionStarted defaults to `0`, and the
payload column gets `json.dumps(entry)`. -/
def entryToRow (entry : Dict) : Row where
  ts := dictGet entry "ts" (.s "")
  method := dictGet entry "method" (.s "")
  ip := dictGet entry "ip" (.s "")
  requestPath := dictGet entry "requestPath" (.s "")
  path := dictGet entry "path" (.s "")
  referrer := dictGet entry "referrer" (.s "")
  userAgent := dictGet entry "userAgent" (.s "")
  event := dictGet entry "event" (.s "")
  sessionId := dictGet entry "sessionId" (.s "")
  sessionStarted := dictGet entry "sessionStarted" (.n 0)
  utm := dictGet entry "utm" (.s "")
  payload := dumps entry

/-- One row of the networked (Postgres) `visits` table: its ts column is
TIMESTAMPTZ, stored here as the Unix epoch seconds `to_timestamp`
produced. -/
structure PgRow where
  ts : Int
  method : Val
  ip : Val
  requestPath : Val
  path : Val
  referrer : Val
  userAgent : Val
  event : Val
  sessionId : Val
  sessionStarted : Val
  utm : Val
  payload : String
deriving DecidableEq, Repr

/-- ASCII decimal digit test. -/
def isDigitChar (c : Char) : Bool :=
  48 ≤ c.toNat && c.toNat ≤ 57

/-- Accumulate a decimal number; `none` on the first non-digit. -/
def parseNatAux : List Char → Nat → Option Nat
  | [], acc => some acc
  | c :: t, acc =>
    if isDigitChar c then parseNatAux t (acc * 10 + (c.toNat - 48))
    else none

/-- The numeric-text cast: an optional sign followed by one or more
decimal digits; anything else fails. -/
def strToIntModel (s : String) : Option Int :=
  match s.data with
  | [] => none
  | '-' :: rest =>
    match rest with
    | [] => none
    | _ => (parseNatAux rest 0).map (fun n => -(n : Int))
  | '+' :: rest =>
    match rest with
    | [] => none
    | _ => (parseNatAux rest 0).map (fun n => (n : Int))
  | cs => (parseNatAux cs 0).map (fun n => (n : Int))

/-- PostgreSQL `to_timestamp(%s)` applied to the bound ts value, per the
documented signature `to_timestamp(double precision)`: the argument is a
number of Unix epoch seconds.  A numeric value converts; a non-numeric
string (such as an ISO-8601 timestamp) fails the cast and makes the
INSERT raise.  Fractional seconds are not modelled. -/
def to_timestamp (v : Val) : Option Int :=
  match v with
  | .n i => some i
  | .s str => strToIntModel str

/-- The networked INSERT of write_db (src/app.py lines 117-140): the row
it produces when `to_timestamp` accepts the ts value, `none` when the
statement raises. -/
def pgEntryToRow (entry : Dict) : Option PgRow :=
  match to_timestamp (dictGet entry "ts" (.s "")) with
  | none => none
  | some epoch =>
    some
      { ts := epoch
        method := dictGet entry "method" (.s "")
        ip := dictGet entry "ip" (.s "")
        requestPath := dictGet entry "requestPath" (.s "")
        path := dictGet entry "path" (.s "")
        referrer := dictGet entry "referrer" (.s "")
        userAgent := dictGet entry "userAgent" (.s "")
        event := dictGet entry "event" (.s "")
        sessionId := dictGet entry "sessionId" (.s "")
        sessionStarted := dictGet entry "sessionStarted" (.n 0)
        utm := dictGet entry "utm" (.s "")
        payload := dumps entry }

/-- Process-wide backend state: `PG_CONN` and `SQLITE_CONN` with the rows
of their `visits` tables (`none` models a null connection). -/
structure Store where
  pg : Option (List PgRow)
  sq : Option (List Row)
deriving DecidableEq, Repr

/-- Module-level backend selection, src/app.py lines 29-56 and 84-85 (the
same block appears in src/server.py): when a DSN is configured the
Postgres connect and table create are attempted, any failure is caught and
leaves `PG_CONN = None`; then `init_sqlite()` runs exactly when `PG_CONN`
is None — it has no try/except, so its own failure is an uncaught
exception at startup (`none`). -/
def initBackends (dsnConfigured pgInitOk sqliteInitOk : Bool) : Option Store :=
  let pg : Option (List PgRow) :=
    if dsnConfigured && pgInitOk then some [] else none
  if pg.isNone then
    if sqliteInitOk then some { pg := pg, sq := some [] } else none
  else
    some { pg := pg, sq := none }

/-- src/app.py lines 114-167, `write_db`: the whole body is wrapped in
try/except, so a failing INSERT (or a null SQLITE_CONN) leaves the store
unchanged.  The Postgres branch runs whenever `PG_CONN` is truthy. -/
def write_db (st : Store) (entry : Dict) : Store :=
  match st.pg with
  | some rows =>
    match pgEntryToRow entry with
    | some row => { st with pg := some (rows ++ [row]) }
    | none => st
  | none =>
    match st.sq with
    | some rows => { st with sq := some (rows ++ [entryToRow entry]) }
    | none => st

/-! ## The stats aggregator -/

/-- The fixed seven-counter record get_stats returns. -/
structure Stats where
  totalEvents : Nat
  visits : Nat
  clicks : Nat
  exits : Nat
  uniqueSessions : Nat
  visitsToday : Nat
  clicksToday : Nat
deriving DecidableEq, Repr

/-- The record get_stats initializes before querying (all counters 0). -/
def zeroStats : Stats :=
  { totalEvents := 0, visits := 0, clicks := 0, exits := 0
    uniqueSessions := 0, visitsToday := 0, clicksToday := 0 }

/-- SQLite renders a non-text value as its decimal text when LIKE compares
it against a pattern. -/
def valText : Val → String
  | .s str => str
  | .n i => toString i

/-- Whether the second list starts the first. -/
def listStartsWith : List Char → List Char → Bool
  | _, [] => true
  | [], _ :: _ => false
  | c :: t, d :: u => c = d && listStartsWith t u

/-- SQLite `ts LIKE '<today>%'` where `today` is the ISO date (which
contains no LIKE wildcard characters): a plain prefix match on the text of
the ts column. -/
def likeToday (today : String) (ts : Val) : Bool :=
  listStartsWith (valText ts).data today.data

/-- Membership test on values (SQL DISTINCT comparison). -/
def memVal (v : Val) : List Val → Bool
  | [] => false
  | w :: t => v = w || memVal v t

/-- The distinct values of a list (each kept once):
COUNT(DISTINCT sessionId) counts its length.  No inserted row holds a NULL
sessionId, so SQL's NULL-skipping does not arise. -/
def dedupVals : List Val → List Val
  | [] => []
  | v :: t => if memVal v t then dedupVals t else v :: dedupVals t

/-- Days-to-civil conversion (standard Gregorian algorithm) used to model
Postgres `ts::date`. -/
def epochToCivil (secs : Int) : Int × Int × Int :=
  let z := Int.fdiv secs 86400 + 719468
  let era := Int.fdiv z 146097
  let doe := z - era * 146097
  let yoe :=
    Int.fdiv (doe - Int.fdiv doe 1460 + Int.fdiv doe 36524 - Int.fdiv doe 146096) 365
  let y := yoe + era * 400
  let doy := doe - (365 * yoe + Int.fdiv yoe 4 - Int.fdiv yoe 100)
  let mp := Int.fdiv (5 * doy + 2) 153
  let d := doy - Int.fdiv (153 * mp + 2) 5 + 1
  let m := mp + (if mp < 10 then 3 else -9)
  (y + (if m ≤ 2 then 1 else 0), m, d)

/-- Zero-padded two-digit rendering of a month or day. -/
def pad2 (n : Int) : String :=
  if n < 10 then "0" ++ toString n else toString n

/-- The ISO date of a Unix epoch instant: Postgres `ts::date` rendered in
the ISO format `current_date` compares against. -/
def epochToIsoDate (secs : Int) : String :=
  let c := epochToCivil secs
  toString c.1 ++ "-" ++ pad2 c.2.1 ++ "-" ++ pad2 c.2.2

/-- The seven aggregation queries of the embedded branch of get_stats
(src/app.py lines 198-214): COUNT(*), COUNT by event kind,
COUNT(DISTINCT sessionId) (no row holds a NULL sessionId, so DISTINCT
counts distinct stored values), and the today counts via
`ts LIKE '<today>%'`. -/
def sqliteStats (rows : List Row) (today : String) : Stats where
  totalEvents := rows.length
  visits := (rows.filter (fun r => r.event = .s "visit")).length
  clicks := (rows.filter (fun r => r.event = .s "click")).length
  exits := (rows.filter (fun r => r.event = .s "exit")).length
  uniqueSessions := (dedupVals (rows.map (fun r => r.sessionId))).length
  visitsToday :=
    (rows.filter (fun r => r.event = .s "visit" ∧ likeToday today r.ts)).length
  clicksToday :=
    (rows.filter (fun r => r.event = .s "click" ∧ likeToday today r.ts)).length

/-- The seven aggregation queries of the networked branch of get_stats
(src/app.py lines 182-197): identical counts, with the today filter
`ts::date = current_date`; `today` stands for the server current date in
ISO form. -/
def pgStats (rows : List PgRow) (today : String) : Stats where
  totalEvents := rows.length
  visits := (rows.filter (fun r => r.event = .s "visit")).length
  clicks := (rows.filter (fun r => r.event = .s "click")).length
  exits := (rows.filter (fun r => r.event = .s "exit")).length
  uniqueSessions := (dedupVals (rows.map (fun r => r.sessionId))).length
  visitsToday :=
    (rows.filter (fun r => r.event = .s "visit" ∧ epochToIsoDate r.ts = today)).length
  clicksToday :=
    (rows.filter (fun r => r.event = .s "click" ∧ epochToIsoDate r.ts = today)).length

/-- src/app.py lines 170-217, `get_stats`: the stats dict starts all-zero;
the queries run inside try/except, so when the backend is unreachable
(`ok = false`: the first execute raises) — or when both connections are
null — the caught exception leaves the zero record to be returned. -/
def get_stats (st : Store) (ok : Bool) (today : String) : Stats :=
  if !ok then zeroStats
  else
    match st.pg with
    | some rows => pgStats rows today
    | none =>
      match st.sq with
      | some rows => sqliteStats rows today
      | none => zeroStats

/-! ## Dictionary lemmas -/

theorem dictGet_nil (k : String) (dflt : Val) : dictGet [] k dflt = dflt := rfl

theorem dictGet_cons (a : String) (b : Val) (t : Dict) (k : String) (dflt : Val) :
    dictGet ((a, b) :: t) k dflt = if a = k then b else dictGet t k dflt := rfl

theorem hasKey_nil (k : String) : hasKey [] k = false := rfl

theorem hasKey_cons_iff (a : String) (b : Val) (t : Dict) (k : String) :
    hasKey ((a, b) :: t) k = true ↔ a = k ∨ hasKey t k = true := by
  simp [hasKey]

theorem hasKey_iff_mem (d : Dict) (k : String) :
    hasKey d k = true ↔ k ∈ d.map Prod.fst := by
  induction d with
  | nil => simp [hasKey]
  | cons a t ih =>
    rcases a with ⟨k₀, v₀⟩
    rw [hasKey_cons_iff]
    simp only [List.map_cons, List.mem_cons]
    rw [ih]
    constructor
    · rintro (h | h)
      · exact Or.inl h.symm
      · exact Or.inr h
    · rintro (h | h)
      · exact Or.inl h.symm
      · exact Or.inr h

theorem dictGet_map_set_self (d : Dict) (k : String) (v dflt : Val) :
    dictGet (d.map (fun p => if p.1 = k then (k, v) else p)) k dflt =
      if hasKey d k then v else dflt := by
  induction d with
  | nil => simp [hasKey, dictGet]
  | cons a t ih =>
    by_cases ha : a.1 = k
    · have h1 : hasKey (a :: t) k = true :=
        (hasKey_cons_iff a.1 a.2 t k).2 (Or.inl ha)
      simp [dictGet, ha, h1]
    · have h1 : hasKey (a :: t) k = hasKey t k := by
        simp [hasKey, List.any_cons, ha]
      simp only [List.map_cons, if_neg ha]
      rw [show dictGet (a :: List.map (fun p => if p.1 = k then (k, v) else p) t)
            k dflt = dictGet (List.map (fun p => if p.1 = k then (k, v) else p) t)
            k dflt from by simp [dictGet, ha], ih, h1]

theorem dictGet_map_set_ne (d : Dict) (k k₂ : String) (v dflt : Val)
    (hne : k ≠ k₂) :
    dictGet (d.map (fun p => if p.1 = k then (k, v) else p)) k₂ dflt =
      dictGet d k₂ dflt := by
  induction d with
  | nil => rfl
  | cons a t ih =>
    by_cases ha : a.1 = k
    · have ha2 : ¬ a.1 = k₂ := by rw [ha]; exact hne
      simp only [List.map_cons, if_pos ha]
      rw [show dictGet ((k, v) :: List.map (fun p => if p.1 = k then (k, v) else p) t)
            k₂ dflt = dictGet (List.map (fun p => if p.1 = k then (k, v) else p) t)
            k₂ dflt from by simp [dictGet, hne], ih]
      simp [dictGet, ha2]
    · simp only [List.map_cons, if_neg ha]
      by_cases hb : a.1 = k₂
      · simp [dictGet, hb]
      · rw [show dictGet (a :: List.map (fun p => if p.1 = k then (k, v) else p) t)
              k₂ dflt = dictGet (List.map (fun p => if p.1 = k then (k, v) else p) t)
              k₂ dflt from by simp [dictGet, hb], ih]
        simp [dictGet, hb]

theorem dictGet_append_single (d : Dict) (k k₂ : String) (v dflt : Val) :
    dictGet (d ++ [(k, v)]) k₂ dflt =
      if hasKey d k₂ then dictGet d k₂ dflt
      else if k = k₂ then v else dflt := by
  induction d with
  | nil => simp [hasKey, dictGet]
  | cons a t ih =>
    by_cases hb : a.1 = k₂
    · have h1 : hasKey (a :: t) k₂ = true :=
        (hasKey_cons_iff a.1 a.2 t k₂).2 (Or.inl hb)
      simp [dictGet, hb, h1]
    · have h1 : hasKey (a :: t) k₂ = hasKey t k₂ := by
        simp [hasKey, List.any_cons, hb]
      rw [List.cons_append,
        show dictGet (a :: (t ++ [(k, v)])) k₂ dflt =
          dictGet (t ++ [(k, v)]) k₂ dflt from by simp [dictGet, hb],
        ih, h1,
        show dictGet (a :: t) k₂ dflt = dictGet t k₂ dflt from by
          simp [dictGet, hb]]

theorem dictGet_of_hasKey_false (d : Dict) (k : String) (dflt : Val)
    (h : hasKey d k = false) : dictGet d k dflt = dflt := by
  induction d with
  | nil => rfl
  | cons a t ih =>
    rw [hasKey, List.any_cons] at h
    cases hd : (decide (a.1 = k)) with
    | true => rw [hd] at h; simp at h
    | false =>
      rw [hd] at h
      simp only [Bool.false_or] at h
      have ha : ¬ a.1 = k := of_decide_eq_false hd
      rw [show dictGet (a :: t) k dflt = dictGet t k dflt from by
            simp [dictGet, ha]]
      exact ih h

theorem dictGet_dictSet_self (d : Dict) (k : String) (v dflt : Val) :
    dictGet (dictSet d k v) k dflt = v := by
  unfold dictSet
  cases hany : d.any (fun p => p.1 = k) with
  | false =>
    rw [if_neg (by simp [hany]), dictGet_append_single,
      show hasKey d k = false from hany]
    simp
  | true =>
    rw [if_pos rfl, dictGet_map_set_self,
      show hasKey d k = true from hany, if_pos rfl]

theorem dictGet_dictSet_ne (d : Dict) (k k₂ : String) (v dflt : Val)
    (hne : k ≠ k₂) :
    dictGet (dictSet d k v) k₂ dflt = dictGet d k₂ dflt := by
  unfold dictSet
  cases hany : d.any (fun p => p.1 = k) with
  | false =>
    rw [if_neg (by simp [hany]), dictGet_append_single, if_neg hne]
    cases h2 : hasKey d k₂ with
    | false => rw [if_neg (by simp [h2]), dictGet_of_hasKey_false d k₂ dflt h2]
    | true => rw [if_pos rfl]
  | true => rw [if_pos rfl, dictGet_map_set_ne d k k₂ v dflt hne]

theorem keys_dictSet (d : Dict) (k : String) (v : Val) :
    (dictSet d k v).map Prod.fst = if hasKey d k then d.map Prod.fst
      else d.map Prod.fst ++ [k] := by
  unfold dictSet hasKey
  by_cases h : d.any (fun p => p.1 = k) = true
  · rw [if_pos (by simpa using h), if_pos h, List.map_map]
    congr 1
    funext p
    by_cases hp : p.1 = k
    · simp [hp]
    · simp [hp]
  · rw [if_neg (by simpa using h), if_neg h]
    simp

theorem hasKey_dictSet (d : Dict) (k k₂ : String) (v : Val) :
    hasKey (dictSet d k v) k₂ = true ↔ k = k₂ ∨ hasKey d k₂ = true := by
  rw [hasKey_iff_mem, hasKey_iff_mem, keys_dictSet]
  by_cases h : hasKey d k = true
  · rw [if_pos h]
    constructor
    · exact Or.inr
    · rintro (rfl | hm)
      · exact (hasKey_iff_mem d k).1 h
      · exact hm
  · rw [if_neg h]
    simp [eq_comm, or_comm]

theorem dictGet_dictUpdate (other : Dict)
    (hnd : (other.map Prod.fst).Nodup) (d : Dict) (k : String) (dflt : Val) :
    dictGet (dictUpdate d other) k dflt =
      if hasKey other k then dictGet other k dflt else dictGet d k dflt := by
  induction other generalizing d with
  | nil => simp [dictUpdate, hasKey, dictGet]
  | cons a t ih =>
    rcases a with ⟨k₀, v₀⟩
    simp only [List.map_cons, List.nodup_cons] at hnd
    have hstep : dictUpdate d ((k₀, v₀) :: t) = dictUpdate (dictSet d k₀ v₀) t := rfl
    rw [hstep, ih hnd.2 (dictSet d k₀ v₀)]
    by_cases hk : hasKey t k = true
    · have hmem : k ∈ t.map Prod.fst := (hasKey_iff_mem t k).1 hk
      have hke : ¬ k₀ = k := fun he => hnd.1 (he ▸ hmem)
      rw [if_pos hk, if_pos, dictGet_cons, if_neg hke]
      exact (hasKey_cons_iff k₀ v₀ t k).2 (Or.inr hk)
    · rw [if_neg hk]
      by_cases hke : k₀ = k
      · subst hke
        rw [dictGet_dictSet_self, if_pos, dictGet_cons, if_pos rfl]
        exact (hasKey_cons_iff k₀ v₀ t k₀).2 (Or.inl rfl)
      · rw [dictGet_dictSet_ne d k₀ k v₀ dflt hke, if_neg]
        intro hc
        rcases (hasKey_cons_iff k₀ v₀ t k).1 hc with h1 | h1
        · exact hke h1
        · exact hk h1

theorem dictGet_dictSetdefault_ne (d : Dict) (k k₂ : String) (v dflt : Val)
    (hne : k ≠ k₂) :
    dictGet (dictSetdefault d k v) k₂ dflt = dictGet d k₂ dflt := by
  unfold dictSetdefault
  cases hany : d.any (fun p => p.1 = k) with
  | false =>
    rw [if_neg (by simp [hany]), dictGet_append_single, if_neg hne]
    cases h2 : hasKey d k₂ with
    | false => rw [if_neg (by simp [h2]), dictGet_of_hasKey_false d k₂ dflt h2]
    | true => rw [if_pos rfl]
  | true => rw [if_pos rfl]

/-! ## Claim C1 -/

/-- Claim C1 counterexample: with a faulting file sink, the raw-socket
server invokes only the remote and file sinks — the storage insert is
never reached — and no 204 response is produced (the uncaught file-sink
exception escapes Handler.do_POST), contradicting the claim that a failure
in one sink prevents neither the remaining sinks nor the accepted
response. -/
theorem C1_counterexample :
    server_sink_trace { remote := false, file := true, db := false } =
      (["remote", "file"], true) ∧
    (server_do_post
      { nowTs := "2025-10-12T00:00:00Z", xForwardedFor := none,
        clientAddress := "127.0.0.1", parsedPath := "/api/visit" }
      (PostBody.obj [])
      { remote := false, file := true, db := false }).2.2 = none :=
  ⟨rfl, rfl⟩

/-- Claim C1 (amended): in app.py the three sinks are invoked in the order
remote, file, storage, each failure is isolated, and both handlers always
return 204; in server.py the same order holds and remote/storage failures
are isolated, but a file-sink failure aborts the sequence before the
storage insert and no 204 is sent. -/
theorem C1_pipeline_fanout :
    (∀ f : SinkFaults,
      app_persist_trace f = (["remote", "file", "db"], false)) ∧
    (∀ (ctx : AppCtx) (body : PostBody) (f : SinkFaults),
      (app_visit_post ctx body f).2.2 = some 204) ∧
    (∀ (ctx : AppCtx) (p : GetParams) (f : SinkFaults),
      (app_visit_get ctx p f).2.2 = some 204) ∧
    (∀ f : SinkFaults, f.file = false →
      server_sink_trace f = (["remote", "file", "db"], false)) ∧
    (∀ (ctx : ServerCtx) (d : Dict) (f : SinkFaults), f.file = false →
      (server_do_post ctx (PostBody.obj d) f).2.2 = some 204) ∧
    (∀ f : SinkFaults, f.file = true →
      server_sink_trace f = (["remote", "file"], true)) := by
  refine ⟨?_, ?_, ?_, ?_, ?_, ?_⟩
  · rintro ⟨r, fl, db⟩
    cases r <;> cases fl <;> cases db <;> rfl
  · rintro ctx body ⟨r, fl, db⟩
    cases r <;> cases fl <;> cases db <;> rfl
  · rintro ctx p ⟨r, fl, db⟩
    cases r <;> cases fl <;> cases db <;> rfl
  · rintro ⟨r, fl, db⟩ h
    cases h
    cases r <;> cases db <;> rfl
  · rintro ctx d ⟨r, fl, db⟩ h
    cases h
    cases r <;> cases db <;> rfl
  · rintro ⟨r, fl, db⟩ h
    cases h
    cases r <;> cases db <;> rfl

/-- Claim C1 witness: the amended pipeline theorem evaluated at concrete
fault vectors. -/
theorem C1_pipeline_fanout_witness :
    app_persist_trace { remote := true, file := true, db := true } =
      (["remote", "file", "db"], false) ∧
    server_sink_trace { remote := true, file := false, db := true } =
      (["remote", "file", "db"], false) ∧
    server_sink_trace { remote := false, file := true, db := false } =
      (["remote", "file"], true) :=
  ⟨C1_pipeline_fanout.1 _, C1_pipeline_fanout.2.2.2.1 _ rfl,
    C1_pipeline_fanout.2.2.2.2.2 _ rfl⟩

/-! ## Claim C2 -/

/-- Claim C2 counterexample: a POST payload carrying `method` and `ts`
keys replaces the server-set values in the resulting entry
(`entry.update(payload)` runs after the server fields are set, so the
caller wins), contradicting the claim that server-set values override
caller-supplied ones. -/
theorem C2_counterexample :
    dictGet (app_visit_post_entry
      { nowTs := "2025-10-12T00:00:00Z", clientHost := some "127.0.0.1",
        xForwardedFor := none, urlPath := "/api/visit" }
      (PostBody.obj [("method", .s "HACK"), ("ts", .s "1999-01-01")]))
      "method" (.s "") = .s "HACK" ∧
    dictGet (app_visit_post_entry
      { nowTs := "2025-10-12T00:00:00Z", clientHost := some "127.0.0.1",
        xForwardedFor := none, urlPath := "/api/visit" }
      (PostBody.obj [("method", .s "HACK"), ("ts", .s "1999-01-01")]))
      "ts" (.s "") = .s "1999-01-01" ∧
    Val.s "HACK" ≠ Val.s "POST" :=
  ⟨rfl, rfl, by decide⟩

/-- Claim C2 (amended): the normalizers do set ts, method, ip and
requestPath from transport context, but for POST a caller-supplied field
of the same name overrides the server-set value (the merge gives the
caller precedence); only for GET can the caller never replace them, since
the fixed parameter names do not include these fields. -/
theorem C2_server_fields :
    (∀ (ctx : AppCtx) (d : Dict), (d.map Prod.fst).Nodup →
      ∀ k : String, k = "ts" ∨ k = "method" ∨ k = "ip" ∨ k = "requestPath" →
        dictGet (app_visit_post_entry ctx (PostBody.obj d)) k (.s "") =
          (if hasKey d k then dictGet d k (.s "")
           else dictGet [("ts", .s ctx.nowTs), ("method", .s "POST"),
             ("ip", .s (appClientHost ctx)), ("requestPath", .s ctx.urlPath)]
             k (.s ""))) ∧
    (∀ (ctx : ServerCtx) (d : Dict), (d.map Prod.fst).Nodup →
      ∀ k : String, k = "ts" ∨ k = "method" ∨ k = "ip" ∨ k = "requestPath" →
        dictGet (server_post_entry ctx (some d)) k (.s "") =
          (if hasKey d k then dictGet d k (.s "")
           else dictGet [("ts", .s ctx.nowTs), ("method", .s "POST"),
             ("ip", .s (serverClientIp ctx.xForwardedFor ctx.clientAddress)),
             ("requestPath", .s ctx.parsedPath)] k (.s ""))) ∧
    (∀ (ctx : AppCtx) (p : GetParams),
      dictGet (app_visit_get_entry ctx p) "ts" (.s "") = .s ctx.nowTs ∧
      dictGet (app_visit_get_entry ctx p) "method" (.s "") = .s "GET" ∧
      dictGet (app_visit_get_entry ctx p) "requestPath" (.s "") =
        .s ctx.urlPath) := by
  refine ⟨?_, ?_, ?_⟩
  · intro ctx d hnd k hk
    have hrw : app_visit_post_entry ctx (PostBody.obj d) =
        dictSetdefault (dictSetdefault (dictSetdefault
          (dictUpdate [("ts", .s ctx.nowTs), ("method", .s "POST"),
            ("ip", .s (appClientHost ctx)), ("requestPath", .s ctx.urlPath)] d)
          "path" (.s "")) "referrer" (.s "")) "userAgent" (.s "") := rfl
    rcases hk with rfl | rfl | rfl | rfl <;>
      rw [hrw, dictGet_dictSetdefault_ne _ _ _ _ _ (by decide),
        dictGet_dictSetdefault_ne _ _ _ _ _ (by decide),
        dictGet_dictSetdefault_ne _ _ _ _ _ (by decide),
        dictGet_dictUpdate d hnd]
  · intro ctx d hnd k hk
    have hrw : server_post_entry ctx (some d) =
        dictSetdefault (dictSetdefault (dictSetdefault
          (dictUpdate [("ts", .s ctx.nowTs), ("method", .s "POST"),
            ("ip", .s (serverClientIp ctx.xForwardedFor ctx.clientAddress)),
            ("requestPath", .s ctx.parsedPath)] d)
          "path" (.s "")) "referrer" (.s "")) "userAgent" (.s "") := rfl
    rcases hk with rfl | rfl | rfl | rfl <;>
      rw [hrw, dictGet_dictSetdefault_ne _ _ _ _ _ (by decide),
        dictGet_dictSetdefault_ne _ _ _ _ _ (by decide),
        dictGet_dictSetdefault_ne _ _ _ _ _ (by decide),
        dictGet_dictUpdate d hnd]
  · intro ctx p
    exact ⟨rfl, rfl, rfl⟩

/-- Claim C2 witness: the amended theorem at a concrete payload that
overrides `method`. -/
theorem C2_server_fields_witness :
    dictGet (app_visit_post_entry
      { nowTs := "T0", clientHost := none, xForwardedFor := none,
        urlPath := "/api/visit" }
      (PostBody.obj [("method", .s "X")])) "method" (.s "") =
      (if hasKey [("method", Val.s "X")] "method" then
        dictGet [("method", Val.s "X")] "method" (.s "")
       else dictGet [("ts", Val.s "T0"), ("method", Val.s "POST"),
         ("ip", Val.s ""), ("requestPath", Val.s "/api/visit")]
         "method" (.s "")) :=
  C2_server_fields.1
    { nowTs := "T0", clientHost := none, xForwardedFor := none,
      urlPath := "/api/visit" }
    [("method", .s "X")] (by decide) "method" (Or.inr (Or.inl rfl))

/-! ## Claim C3 -/

/-- Claim C3 counterexample: the raw-socket server rejects a body that
fails JSON parsing with `send_error(400)` — no entry is built, no sink is
invoked — contradicting the claim that a parse failure never rejects the
request. -/
theorem C3_counterexample :
    server_do_post
      { nowTs := "2025-10-12T00:00:00Z", xForwardedFor := none,
        clientAddress := "127.0.0.1", parsedPath := "/api/visit" }
      PostBody.parseError
      { remote := false, file := false, db := false } =
      (none, [], some 400) := rfl

/-- Claim C3 (amended): in app.py a parse failure or a non-object body is
normalized exactly like the empty object — all caller-supplied fields
empty — and the request is still processed and answered 204; in server.py
a non-object body is likewise processed, but a body that fails JSON
parsing is rejected with 400 and never reaches the pipeline. -/
theorem C3_parse_failure :
    (∀ (ctx : AppCtx) (v : Val) (f : SinkFaults),
      app_visit_post_entry ctx PostBody.parseError =
        app_visit_post_entry ctx (PostBody.obj []) ∧
      app_visit_post_entry ctx (PostBody.nonObj v) =
        app_visit_post_entry ctx (PostBody.obj []) ∧
      (app_visit_post ctx PostBody.parseError f).2.2 = some 204) ∧
    (∀ (ctx : ServerCtx) (f : SinkFaults),
      server_do_post ctx PostBody.parseError f = (none, [], some 400)) ∧
    (∀ (ctx : ServerCtx) (v : Val) (f : SinkFaults), f.file = false →
      (server_do_post ctx (PostBody.nonObj v) f).1 =
        some (server_post_entry ctx none) ∧
      (server_do_post ctx (PostBody.nonObj v) f).2.2 = some 204) := by
  refine ⟨?_, ?_, ?_⟩
  · rintro ctx v ⟨r, fl, db⟩
    refine ⟨rfl, rfl, ?_⟩
    cases r <;> cases fl <;> cases db <;> rfl
  · intro ctx f
    rfl
  · rintro ctx v ⟨r, fl, db⟩ h
    cases h
    cases r <;> cases db <;> exact ⟨rfl, rfl⟩

/-- Claim C3 witness: the amended theorem at a concrete context, body and
fault vector. -/
theorem C3_parse_failure_witness :
    (server_do_post
      { nowTs := "T0", xForwardedFor := none, clientAddress := "10.0.0.1",
        parsedPath := "/api/visit" }
      (PostBody.nonObj (.n 5))
      { remote := true, file := false, db := true }).1 =
      some (server_post_entry
        { nowTs := "T0", xForwardedFor := none, clientAddress := "10.0.0.1",
          parsedPath := "/api/visit" } none) ∧
    (server_do_post
      { nowTs := "T0", xForwardedFor := none, clientAddress := "10.0.0.1",
        parsedPath := "/api/visit" }
      (PostBody.nonObj (.n 5))
      { remote := true, file := false, db := true }).2.2 = some 204 :=
  C3_parse_failure.2.2
    { nowTs := "T0", xForwardedFor := none, clientAddress := "10.0.0.1",
      parsedPath := "/api/visit" } (.n 5)
    { remote := true, file := false, db := true } rfl

/-! ## Claim C4 -/

/-- Closed form of initBackends, by cases on the three flags. -/
theorem initBackends_eq (d p s : Bool) :
    initBackends d p s =
      if d && p then some { pg := some [], sq := none }
      else if s then some { pg := none, sq := some [] } else none := by
  cases d <;> cases p <;> cases s <;> rfl

/-- Claim C4 counterexample: when the networked init fails and the
embedded init also fails (init_sqlite has no try/except), startup raises —
backend selection is not unconditionally non-fatal on networked failure. -/
theorem C4_counterexample : initBackends true false false = none := rfl

/-- Claim C4 (amended): provided the embedded initialization itself
succeeds, a networked-backend failure is non-fatal and selection falls
back to the embedded variant; in every successfully initialized state
exactly one of the two connections is non-null, and neither write_db nor
get_stats ever changes which connection is non-null. -/
theorem C4_backend_selection :
    (∀ dsnConfigured pgInitOk : Bool,
      (initBackends dsnConfigured pgInitOk true).isSome = true) ∧
    (∀ dsnConfigured pgInitOk sqliteInitOk : Bool, ∀ st : Store,
      initBackends dsnConfigured pgInitOk sqliteInitOk = some st →
      (st.pg.isSome = true ↔ ¬ st.sq.isSome = true) ∧
      (¬ (dsnConfigured = true ∧ pgInitOk = true) →
        st.sq.isSome = true ∧ st.pg.isSome = false)) ∧
    (∀ (st : Store) (entry : Dict),
      (write_db st entry).pg.isSome = st.pg.isSome ∧
      (write_db st entry).sq.isSome = st.sq.isSome) := by
  refine ⟨?_, ?_, ?_⟩
  · intro d p
    cases d <;> cases p <;> rfl
  · intro d p s st h
    rw [initBackends_eq] at h
    cases d <;> cases p <;> cases s <;> simp at h <;> subst h <;> decide
  · intro st entry
    rcases st with ⟨pg, sq⟩
    cases pg with
    | some rows =>
      cases h : pgEntryToRow entry <;> simp [write_db, h]
    | none =>
      cases sq with
      | some rows => simp [write_db]
      | none => simp [write_db]

/-- Claim C4 witness: the amended selection theorem at concrete flags —
a failed networked init with a healthy embedded init yields a state whose
embedded connection is the non-null one. -/
theorem C4_backend_selection_witness :
    (initBackends true false true).isSome = true ∧
    (({ pg := none, sq := some [] } : Store).sq.isSome = true ∧
      ({ pg := none, sq := some [] } : Store).pg.isSome = false) :=
  ⟨C4_backend_selection.1 true false,
    (C4_backend_selection.2.1 true false true { pg := none, sq := some [] }
      rfl).2 (by simp)⟩

/-! ## Claim C5 -/

/-- Claim C5: get_stats is a total function of the backend state (it never
raises); when the backend is unreachable at query time (every query
raises, caught by its try/except) it returns the zero-valued seven-counter
record. -/
theorem C5_get_stats_zero_on_failure :
    ∀ (st : Store) (today : String),
      get_stats st false today = zeroStats ∧
      zeroStats = Stats.mk 0 0 0 0 0 0 0 := by
  intro st today
  exact ⟨rfl, rfl⟩

/-! ## Claim C6 -/

/-- Claim C6 counterexample: a POST with the empty-object body yields an
Event with no `sessionStarted` key at all (the normalizer only defaults
path, referrer and userAgent), so the remote and file sinks do not observe
a record with sessionStarted=0, contrary to the claim. -/
theorem C6_counterexample :
    hasKey (app_visit_post_entry
      { nowTs := "2025-10-12T00:00:00Z", clientHost := some "127.0.0.1",
        xForwardedFor := none, urlPath := "/api/visit" }
      (PostBody.obj [])) "sessionStarted" = false := rfl

/-- Claim C6 (amended): a POST with empty body yields an Event whose
path, referrer and userAgent are explicitly `""`, but whose sessionStarted
(like event, sessionId and utm) is left absent; only the storage insert
substitutes 0 for the missing sessionStarted at write time, so the
database row is fully populated while the remote and file sinks observe
the record without that field. -/
theorem C6_empty_body_defaults :
    ∀ ctx : AppCtx,
      app_visit_post_entry ctx (PostBody.obj []) =
        [("ts", .s ctx.nowTs), ("method", .s "POST"),
         ("ip", .s (appClientHost ctx)), ("requestPath", .s ctx.urlPath),
         ("path", .s ""), ("referrer", .s ""), ("userAgent", .s "")] ∧
      hasKey (app_visit_post_entry ctx (PostBody.obj [])) "sessionStarted"
        = false ∧
      (entryToRow (app_visit_post_entry ctx (PostBody.obj []))).sessionStarted
        = .n 0 := by
  intro ctx
  exact ⟨rfl, rfl, rfl⟩

/-! ## Claim C7 -/

/-- Claim C7 counterexample: the FastAPI POST handler sets the entry ip to
the raw peer address even when a forwarding header listing
"1.2.3.4, 5.6.7.8" is present — app.py never reads the header — so the
claimed split/trim computation does not happen in every handler. -/
theorem C7_counterexample :
    dictGet (app_visit_post_entry
      { nowTs := "2025-10-12T00:00:00Z", clientHost := some "9.9.9.9",
        xForwardedFor := some "1.2.3.4, 5.6.7.8", urlPath := "/api/visit" }
      (PostBody.obj [])) "ip" (.s "") = .s "9.9.9.9" ∧
    specClientIp (some "1.2.3.4, 5.6.7.8") "9.9.9.9" = "1.2.3.4" ∧
    ("9.9.9.9" : String) ≠ "1.2.3.4" := by
  refine ⟨rfl, by decide, by decide⟩

/-- Claim C7 (amended): the raw-socket server resolves clientIp exactly by
the spec rule (split the forwarding header on a comma, first token,
trimmed, falling back to the peer address), as the concrete examples show;
the FastAPI handlers instead always use the raw peer address (empty when
there is no client), ignoring the forwarding header. -/
theorem C7_client_ip :
    (∀ (xff : Option String) (peer : String),
      serverClientIp xff peer = specClientIp xff peer) ∧
    specClientIp (some "1.2.3.4, 5.6.7.8") "peer" = "1.2.3.4" ∧
    specClientIp none "7.7.7.7" = "7.7.7.7" ∧
    (∀ (ctx : ServerCtx) (p : GetParams),
      dictGet (server_get_entry ctx p) "ip" (.s "") =
        .s (serverClientIp ctx.xForwardedFor ctx.clientAddress)) ∧
    (∀ (ctx : AppCtx) (p : GetParams),
      dictGet (app_visit_get_entry ctx p) "ip" (.s "") =
        .s (appClientHost ctx)) ∧
    (∀ (ctx : AppCtx) (d : Dict),
      (d.map Prod.fst).Nodup → hasKey d "ip" = false →
      dictGet (app_visit_post_entry ctx (PostBody.obj d)) "ip" (.s "") =
        .s (appClientHost ctx)) := by
  refine ⟨?_, by decide, by decide, ?_, ?_, ?_⟩
  · intro xff peer
    rfl
  · intro ctx p
    rfl
  · intro ctx p
    rfl
  · intro ctx d hnd hip
    have hrw : app_visit_post_entry ctx (PostBody.obj d) =
        dictSetdefault (dictSetdefault (dictSetdefault
          (dictUpdate [("ts", .s ctx.nowTs), ("method", .s "POST"),
            ("ip", .s (appClientHost ctx)), ("requestPath", .s ctx.urlPath)] d)
          "path" (.s "")) "referrer" (.s "")) "userAgent" (.s "") := rfl
    rw [hrw, dictGet_dictSetdefault_ne _ _ _ _ _ (by decide),
      dictGet_dictSetdefault_ne _ _ _ _ _ (by decide),
      dictGet_dictSetdefault_ne _ _ _ _ _ (by decide),
      dictGet_dictUpdate d hnd, hip]
    rfl

/-- Claim C7 witness: the amended clientIp theorem at concrete inputs. -/
theorem C7_client_ip_witness :
    dictGet (app_visit_post_entry
      { nowTs := "T0", clientHost := some "8.8.8.8",
        xForwardedFor := some "1.2.3.4", urlPath := "/api/visit" }
      (PostBody.obj [("event", .s "visit")])) "ip" (.s "") =
      .s (appClientHost
        { nowTs := "T0", clientHost := some "8.8.8.8",
          xForwardedFor := some "1.2.3.4", urlPath := "/api/visit" }) :=
  C7_client_ip.2.2.2.2.2
    { nowTs := "T0", clientHost := some "8.8.8.8",
      xForwardedFor := some "1.2.3.4", urlPath := "/api/visit" }
    [("event", .s "visit")] (by decide) rfl

/-! ## Claim C8 -/

/-- Claim C8: inserting, through write_db against the embedded backend,
3 visit events (exactly one dated today 2025-10-12), 2 click events (none
today) and 1 exit event across the 2 distinct sessionId values A and B,
get_stats returns exactly the claimed seven counters. -/
theorem C8_get_stats_scenario :
    get_stats
      (write_db (write_db (write_db (write_db (write_db (write_db
        { pg := none, sq := some [] }
        [("ts", Val.s "2025-10-12T08:00:00Z"), ("event", Val.s "visit"),
         ("sessionId", Val.s "A")])
        [("ts", Val.s "2025-10-11T08:00:00Z"), ("event", Val.s "visit"),
         ("sessionId", Val.s "A")])
        [("ts", Val.s "2025-10-10T09:30:00Z"), ("event", Val.s "visit"),
         ("sessionId", Val.s "B")])
        [("ts", Val.s "2025-10-11T10:00:00Z"), ("event", Val.s "click"),
         ("sessionId", Val.s "A")])
        [("ts", Val.s "2025-10-09T10:00:00Z"), ("event", Val.s "click"),
         ("sessionId", Val.s "B")])
        [("ts", Val.s "2025-10-11T11:00:00Z"), ("event", Val.s "exit"),
         ("sessionId", Val.s "B")])
      true "2025-10-12" =
      { totalEvents := 6, visits := 3, clicks := 2, exits := 1,
        uniqueSessions := 2, visitsToday := 1, clicksToday := 0 } := by
  decide

/-! ## Claim C9 -/

/-- Claim C9: the two backend variants are not read-equivalent over
pipeline events — the networked INSERT hands the ISO-8601 ts string to
to_timestamp, which takes epoch seconds, so the insert raises and is
swallowed: after one normalized POST event the networked variant still
reports 0 total events while the embedded variant reports 1. -/
theorem C9_backend_divergence :
    to_timestamp (Val.s "2025-10-12T10:00:00Z") = none ∧
    (get_stats
      (write_db { pg := some [], sq := none }
        (app_visit_post_entry
          { nowTs := "2025-10-12T10:00:00Z", clientHost := some "127.0.0.1",
            xForwardedFor := none, urlPath := "/api/visit" }
          (PostBody.obj [])))
      true "2025-10-12").totalEvents = 0 ∧
    (get_stats
      (write_db { pg := none, sq := some [] }
        (app_visit_post_entry
          { nowTs := "2025-10-12T10:00:00Z", clientHost := some "127.0.0.1",
            xForwardedFor := none, urlPath := "/api/visit" }
          (PostBody.obj [])))
      true "2025-10-12").totalEvents = 1 := by
  refine ⟨by decide, by decide, by decide⟩

/-! ## Claim C10 -/

/-- Claim C10: the embedded insert appends exactly the row built from the
fixed parameter tuple (the networked variant binds the identical tuple):
every missing string field is stored as `""`, a missing sessionStarted is
stored as 0, and the payload column always holds the JSON serialization of
the entire entry; the row type makes all twelve non-id columns populated. -/
theorem C10_row_fully_populated :
    ∀ (entry : Dict) (rows : List Row),
      (write_db { pg := none, sq := some rows } entry).sq =
        some (rows ++ [entryToRow entry]) ∧
      (entryToRow entry).payload = dumps entry ∧
      (hasKey entry "ts" = false → (entryToRow entry).ts = .s "") ∧
      (hasKey entry "method" = false → (entryToRow entry).method = .s "") ∧
      (hasKey entry "ip" = false → (entryToRow entry).ip = .s "") ∧
      (hasKey entry "requestPath" = false →
        (entryToRow entry).requestPath = .s "") ∧
      (hasKey entry "path" = false → (entryToRow entry).path = .s "") ∧
      (hasKey entry "referrer" = false →
        (entryToRow entry).referrer = .s "") ∧
      (hasKey entry "userAgent" = false →
        (entryToRow entry).userAgent = .s "") ∧
      (hasKey entry "event" = false → (entryToRow entry).event = .s "") ∧
      (hasKey entry "sessionId" = false →
        (entryToRow entry).sessionId = .s "") ∧
      (hasKey entry "sessionStarted" = false →
        (entryToRow entry).sessionStarted = .n 0) ∧
      (hasKey entry "utm" = false → (entryToRow entry).utm = .s "") := by
  intro entry rows
  refine ⟨rfl, rfl, ?_, ?_, ?_, ?_, ?_, ?_, ?_, ?_, ?_, ?_, ?_⟩ <;>
    intro h <;> exact dictGet_of_hasKey_false entry _ _ h

/-- Claim C10 witness: the row theorem at the empty entry, where every
optional field is missing and every default fires. -/
theorem C10_row_fully_populated_witness :
    (write_db { pg := none, sq := some [] } ([] : Dict)).sq =
      some [entryToRow []] ∧
    (entryToRow ([] : Dict)).payload = dumps [] ∧
    (entryToRow ([] : Dict)).sessionStarted = .n 0 ∧
    (entryToRow ([] : Dict)).path = .s "" :=
  ⟨(C10_row_fully_populated [] []).1,
    (C10_row_fully_populated [] []).2.1,
    (C10_row_fully_populated [] []).2.2.2.2.2.2.2.2.2.2.2.1 rfl,
    (C10_row_fully_populated [] []).2.2.2.2.2.2.1 rfl⟩

end Landing
